import Mathlib

/-!
Shallow embedding of the transcript acquisition pipeline
(`transcript_tool.py`) and the cloud staging adapter
(`transcribe_audio.py`).

External collaborators (the video-metadata service behind
`pytubefix.YouTube(...).title`, the captions service behind
`YouTubeTranscriptApi.get_transcript`, the `yt-dlp`, `whisper` and
`transcribe_audio.py` subprocesses, the channel listing endpoint,
and the cloud storage / speech services) are modelled as environment
records carrying the outcome each call would produce.  The local
filesystem is modelled as an association list from file name to
content.  External calls made by the code are additionally recorded
in an event trace so that ordering and cost properties can be stated.
-/

namespace TranscriptTool

/-! ### Slug generator (`slugify`, transcript_tool.py lines 25-29)

Python's `re` and `str.lower()` are Unicode-aware.  The model below is
faithful for every code point below 0x100 (ASCII and Latin-1), the
character sets and the case mapping being taken from the Unicode data
CPython uses on that range; code points at 0x100 and above are outside
the modelled fragment. -/

/-- The characters of the Latin-1 range (0x80-0xFF) that Python's `\w`
matches: the letters 0xC0-0xFF except the multiplication and division
signs 0xD7/0xF7, plus ª µ º and the numeric characters ² ³ ¹ ¼ ½ ¾. -/
def latinWordChar (n : Nat) : Bool :=
  n == 0xAA || n == 0xB2 || n == 0xB3 || n == 0xB5 || n == 0xB9 || n == 0xBA ||
  n == 0xBC || n == 0xBD || n == 0xBE ||
  (decide (0xC0 ≤ n) && decide (n ≤ 0xFF) && !(n == 0xD7) && !(n == 0xF7))

/-- Python's `\w` below 0x100: `[a-zA-Z0-9_]` plus the Latin-1 word
characters. -/
def isWordChar (c : Char) : Bool := c.isAlphanum || c = '_' || latinWordChar c.toNat

/-- Python's `\s` below 0x100: space, tab, newline, carriage return,
vertical tab, form feed, plus NEL (0x85) and no-break space (0xA0). -/
def isSpaceChar (c : Char) : Bool :=
  c = ' ' || c = '\t' || c = '\n' || c = '\r' || c = '\x0b' || c = '\x0c' ||
  c.toNat == 0x85 || c.toNat == 0xA0

/-- Python's `str.lower()` below 0x100: `A`-`Z` and `À`-`Þ` (except
the multiplication sign 0xD7) map to the character 0x20 higher; every
other character of the fragment is unchanged (no lowering below 0x100
changes the string length). -/
def toLowerPy (c : Char) : Char :=
  let n := c.toNat
  if (65 ≤ n ∧ n ≤ 90) ∨ (0xC0 ≤ n ∧ n ≤ 0xDE ∧ n ≠ 0xD7) then Char.ofNat (n + 0x20)
  else c

/-- The character class `[\s:]` of the second substitution. -/
def isSpaceColon (c : Char) : Bool := isSpaceChar c || c = ':'

/-- `re.sub(r'[^\w\s-]', '', text)`: keep word characters, whitespace
and hyphen, delete everything else (in particular colons). -/
def stripDisallowed (s : List Char) : List Char :=
  s.filter (fun c => isWordChar c || isSpaceChar c || c = '-')

/-- Worker for `re.sub(r'[\s:]+', '_', text)`: each maximal run of
whitespace-or-colon characters is replaced by a single underscore.
The flag records whether we are inside such a run. -/
def collapseAux : Bool → List Char → List Char
  | _, [] => []
  | inRun, c :: rest =>
    if isSpaceColon c then
      if inRun then collapseAux true rest else '_' :: collapseAux true rest
    else c :: collapseAux false rest

/-- `re.sub(r'[\s:]+', '_', text)`. -/
def collapseRuns (s : List Char) : List Char := collapseAux false s

/-- `str.lower()`. -/
def lowerChars (s : List Char) : List Char := s.map toLowerPy

/-- `str.strip('_')`: drop leading and trailing underscores. -/
def stripUnderscore (s : List Char) : List Char :=
  ((s.dropWhile (fun c => c = '_')).reverse.dropWhile (fun c => c = '_')).reverse

/-- `slugify` (transcript_tool.py lines 25-29): strip characters
outside `[\w\s-]`, collapse `[\s:]+` runs to `_`, lower-case, strip
leading/trailing underscores. -/
def slugify (text : String) : String :=
  String.mk (stripUnderscore (lowerChars (collapseRuns (stripDisallowed text.data))))

abbrev FS := List (String × String)

def fsExists (fs : FS) (n : String) : Bool := fs.any (fun p => p.1 == n)

def fsRemoveName (fs : FS) (n : String) : FS := fs.filter (fun p => !(p.1 == n))

def fsWrite (fs : FS) (n t : String) : FS := (n, t) :: fsRemoveName fs n

def fsRead (fs : FS) (n : String) : String :=
  ((fs.find? (fun p => p.1 == n)).map Prod.snd).getD ""

def fsRename (fs : FS) (src dst : String) : FS :=
  fsWrite (fsRemoveName fs src) dst (fsRead fs src)

/-! ### External-call events of the strategy executor -/

/-- External calls made while processing a single video.
`titleFetch` is the video metadata fetch performed by
`pytubefix.YouTube(url).title` (an HTTP request to the video site);
`captionsFetch` is `YouTubeTranscriptApi.get_transcript`;
`existsCheck` is the local `os.path.exists` probe; the `proc*` events
are the `subprocess.run` invocations of `yt-dlp`, `whisper` and
`transcribe_audio.py`. -/
inductive Event
  | titleFetch (vid : String)
  | existsCheck (file : String)
  | captionsFetch (vid : String)
  | procYtdlp (vid : String)
  | procWhisper (file : String)
  | procTranscribe (file : String)
deriving DecidableEq, Repr

/-- Events that go over the network: the video-metadata (title) fetch
and the captions fetch. -/
def isNetworkEvent : Event → Bool
  | .titleFetch _ => true
  | .captionsFetch _ => true
  | _ => false

/-- Events that spawn a subprocess. -/
def isSubprocessEvent : Event → Bool
  | .procYtdlp _ => true
  | .procWhisper _ => true
  | .procTranscribe _ => true
  | _ => false

/-! ### Strategy executor (`download_and_save_transcript`, lines 68-138) -/

/-- Per-video collaborator environment: the outcome each external call
would produce for this video.  `title` is what `YouTube(url).title`
returns (`error` = the collaborator raised); `captions` is what
`YouTubeTranscriptApi.get_transcript` returns (the `text` field of each
fragment, in collaborator order; `error` = it raised); `ytdlpOk`,
`whisperOk`, `transcribeOk` say whether the respective subprocess exits
zero (`false` = `CalledProcessError` under `check=True`);
`whisperText` is the content the whisper tool writes to `{vid}.txt`;
`transcribeText` is the content the `transcribe_audio.py` subprocess
writes to the output file; `now` is `datetime.now().strftime(...)`. -/
structure VideoEnv where
  title : Except Unit String
  captions : Except Unit (List String)
  ytdlpOk : Bool
  whisperOk : Bool
  whisperText : String
  transcribeOk : Bool
  transcribeText : String
  now : String

/-- Result of one strategy-executor invocation: the `(bool, status)`
pair the Python function returns, the filesystem after the call, the
combined-log entries after the call, and the external-call trace. -/
structure ExecResult where
  ok : Bool
  status : String
  fs : FS
  log : List String
  trace : List Event

/-- `f"{title}-{video_id}-transcript.txt"` (line 76): the derived
artifact name, a pure function of the slug and the identifier. -/
def derivedFilename (slug vid : String) : String :=
  slug ++ "-" ++ vid ++ "-transcript.txt"

def dashLine : String := String.mk (List.replicate 40 '-')

/-- The framed combined-log entry written for a saved transcript
(lines 126-129): filename header, title, retrieval timestamp,
separator line, body text. -/
def framedEntry (filename title now text : String) : String :=
  "## Transcript File: " ++ filename ++ "\n" ++
  "## Video Title: " ++ title ++ "\n" ++
  "## Retrieved: " ++ now ++ "\n" ++
  dashLine ++ "\n" ++ text ++ "\n\n"

/-- The guarded combined-log write (lines 125-129): an entry is
appended only when a handle was supplied and the text is non-empty
(`if combined_file_handle and text:`). -/
def appendLog (wantLog : Bool) (log : List String)
    (filename title now text : String) : List String :=
  if wantLog && !(text == "") then log ++ [framedEntry filename title now text]
  else log

/-- The sibling-cleanup loop of the whisper branch (lines 100-101):
`for ext in ['mp3','json','srt','tsv','vtt']: if exists: os.remove`. -/
def cleanupSiblings (fs : FS) (vid : String) : FS :=
  ["mp3", "json", "srt", "tsv", "vtt"].foldl
    (fun a e => fsRemoveName a (vid ++ "." ++ e)) fs

/-- `download_and_save_transcript(video_id, use_whisper, use_api,
combined_file_handle)` (lines 68-138).  Mirrors the source flow: fetch
the title (any exception is caught by the outer `except` and classified
as `(False, "error")`); derive the filename; skip if it exists; else
run exactly one of the whisper / captions-API / cloud strategies, whose
subprocess and collaborator failures are likewise caught and
classified; on success optionally append the framed combined-log
entry and return `(True, "new")`. -/
def download_and_save_transcript (env : VideoEnv) (fs : FS) (video_id : String)
    (use_whisper use_api wantLog : Bool) (log : List String) : ExecResult :=
  match env.title with
  | .error _ => ⟨false, "error", fs, log, [.titleFetch video_id]⟩
  | .ok rawTitle =>
    let filename := derivedFilename (slugify rawTitle) video_id
    let tr0 : List Event := [.titleFetch video_id, .existsCheck filename]
    if fsExists fs filename then
      ⟨true, "skipped", fs, log, tr0⟩
    else if use_whisper then
      let audio := video_id ++ ".mp3"
      let tr1 := tr0 ++ [.procYtdlp video_id]
      if !env.ytdlpOk then ⟨false, "error", fs, log, tr1⟩
      else
        let fs1 := fsWrite fs audio ""
        let tr2 := tr1 ++ [.procWhisper audio]
        if !env.whisperOk then ⟨false, "error", fs1, log, tr2⟩
        else
          let whisperOut := video_id ++ ".txt"
          let fs2 := fsWrite fs1 whisperOut env.whisperText
          let text := fsRead fs2 whisperOut
          let fs3 := fsRename fs2 whisperOut filename
          let fs4 := cleanupSiblings fs3 video_id
          ⟨true, "new", fs4, appendLog wantLog log filename rawTitle env.now text, tr2⟩
    else if use_api then
      let tr1 := tr0 ++ [.captionsFetch video_id]
      match env.captions with
      | .error _ => ⟨false, "error", fs, log, tr1⟩
      | .ok entries =>
        let text := String.intercalate " " entries
        let fs1 := fsWrite fs filename text
        ⟨true, "new", fs1, appendLog wantLog log filename rawTitle env.now text, tr1⟩
    else
      let audio := video_id ++ ".mp3"
      let tr1 := tr0 ++ [.procYtdlp video_id]
      if !env.ytdlpOk then ⟨false, "error", fs, log, tr1⟩
      else
        let fs1 := fsWrite fs audio ""
        let tr2 := tr1 ++ [.procTranscribe audio]
        if !env.transcribeOk then ⟨false, "error", fs1, log, tr2⟩
        else
          let fs2 := fsWrite fs1 filename env.transcribeText
          let text := fsRead fs2 filename
          let fs3 := fsRemoveName fs2 audio
          ⟨true, "new", fs3, appendLog wantLog log filename rawTitle env.now text, tr2⟩

/-! ### Orchestrator (`process_channel`, lines 142-156) -/

structure Stats where
  new : Nat
  skipped : Nat
  error : Nat
deriving DecidableEq, Repr

/-- `stats[status] += 1` (line 153).  The executor only ever returns
the keys `"new"`, `"skipped"` and `"error"` (proved below), so the
final branch is reached exactly for `"error"`. -/
def bump (s : Stats) (status : String) : Stats :=
  if status = "new" then { s with new := s.new + 1 }
  else if status = "skipped" then { s with skipped := s.skipped + 1 }
  else { s with error := s.error + 1 }

def statTotal (s : Stats) : Nat := s.new + s.skipped + s.error

/-- The per-video loop of `process_channel` (lines 150-153): invoke the
strategy executor for each identifier in order with the shared
combined-file handle, threading the filesystem, the combined log and
the counters. -/
def processVideos (envs : String → VideoEnv) (use_whisper use_api : Bool) :
    List String → FS → List String → Stats → Stats × FS × List String
  | [], fs, log, stats => (stats, fs, log)
  | vid :: rest, fs, log, stats =>
    let r := download_and_save_transcript (envs vid) fs vid use_whisper use_api true log
    processVideos envs use_whisper use_api rest r.fs r.log (bump stats r.status)

/-! ### Identifier resolver (`get_channel_videos`, lines 33-66) -/

/-- Channel-listing environment: the outcome of the channel-info call
(`error` = it raised; `ok` carries the uploads playlist id), and the
successive `playlistItems().list` page responses, each either an
exception (`error`) or a pair of the page's video ids and whether a
`nextPageToken` is present. -/
structure ChannelEnv where
  channelInfo : Except Unit String
  pages : List (Except Unit (List String × Bool))

/-- The pagination loop (lines 46-63): accumulate each successful
page's ids; stop with the accumulated ids on a page error or on a
missing continuation token.  A well-formed environment ends with an
error page or a token-less page; if the response list is exhausted the
accumulated ids are returned (such environments are not used by the
theorems below). -/
def fetchPages : List (Except Unit (List String × Bool)) → List String → List String
  | [], acc => acc
  | .error _ :: _, acc => acc
  | .ok (ids, hasNext) :: rest, acc =>
    if hasNext then fetchPages rest (acc ++ ids) else acc ++ ids

/-- `get_channel_videos(api_key, channel_id)` (lines 33-66): on a
channel-info failure return `[]`; otherwise page through the listing. -/
def get_channel_videos (env : ChannelEnv) : List String :=
  match env.channelInfo with
  | .error _ => []
  | .ok _ => fetchPages env.pages []

/-- `process_channel` (lines 142-156): resolve the channel; if the
identifier sequence is empty return early (`none`, no stats); else run
the per-video loop starting from fresh stats and an empty set of
entries appended to the combined file this session. -/
def process_channel (cenv : ChannelEnv) (envs : String → VideoEnv)
    (use_whisper use_api : Bool) (fs : FS) : Option (Stats × FS × List String) :=
  let ids := get_channel_videos cenv
  if ids.isEmpty then none
  else some (processVideos envs use_whisper use_api ids fs [] ⟨0, 0, 0⟩)

/-! ### Standalone recombine mode (`combine_local_files`, lines 158-175) -/

/-- The banner written at the top of the rebuilt combined file
(line 167). -/
def combinedBanner (now : String) : String :=
  "Combined Transcripts (from local files)\nGenerated on: " ++ now ++ "\n" ++
  String.mk (List.replicate 40 '=') ++ "\n\n"

/-- The framed entry written per discovered artifact (line 171). -/
def episodeEntry (filename content : String) : String :=
  "## Episode Transcript: " ++ filename ++ "\n" ++ content ++ "\n\n"

/-- Python's `str.endswith`, on the character sequence. -/
def strEndsWith (s suf : String) : Bool := suf.data.isSuffixOf s.data

/-- `combine_local_files(output_file)` (lines 158-175): list the
working directory, keep names ending in `-transcript.txt`; if none,
report "no files found" and leave the output untouched (`none`);
otherwise rewrite the output from scratch: the banner followed by one
framed entry per matching file in `sorted` (lexicographic) order.  The
result is the rebuilt content as (banner, entries); each entry is the
(filename, framed text) pair.  This function consults only the
filesystem model - it has no collaborator environment, matching the
source, which makes no network or subprocess calls in this mode. -/
def combine_local_files (fs : FS) (now : String) :
    Option (String × List (String × String)) :=
  let files := (fs.map Prod.fst).filter (fun f => strEndsWith f "-transcript.txt")
  if files.isEmpty then none
  else some (combinedBanner now,
    (List.insertionSort (· ≤ ·) files).map
      (fun f => (f, episodeEntry f (fsRead fs f))))

end TranscriptTool

namespace TranscribeAudio

/-!
### Staging adapter (`transcribe_audio.py`)

`main` uploads the local audio file to cloud storage under a blob
name derived from a timestamp and the file's base name, runs the
long-running transcription, writes the transcript (file or stdout),
and in a `finally` block deletes the uploaded blob.  `KeyboardInterrupt`
anywhere in the `try` body is caught and turned into `sys.exit(0)`;
`sys.exit` raises `SystemExit`, so the `finally` block runs on that
path too, as it does when an uncaught exception propagates.
-/

/-- Exceptions that can escape a collaborator call inside `main`'s
`try` body.  `keyboardInterrupt` models an external interruption
(`KeyboardInterrupt` is a `BaseException`, so it is not swallowed by
the `except Exception` handlers of the callees); `other` models any
ordinary exception. -/
inductive PyErr
  | keyboardInterrupt
  | other
deriving DecidableEq, Repr

/-- Exceptions the storage client can raise during `blob.delete()`. -/
inductive GcsErr
  | notFound
  | other
deriving DecidableEq, Repr

/-- How one `delete_blob` call resolved.  It never raises: `NotFound`
is caught and logged as a skip, every other exception is caught and
logged as an error; in all three cases the function returns normally. -/
inductive DeleteOutcome
  | deleted
  | notFoundSkipped
  | errorSwallowed
deriving DecidableEq, Repr

/-- `delete_blob(bucket_name, blob_name)` (lines 22-34), indexed by
what the storage collaborator does when asked to delete. -/
def delete_blob (raised : Option GcsErr) : DeleteOutcome :=
  match raised with
  | none => .deleted
  | some .notFound => .notFoundSkipped
  | some .other => .errorSwallowed

/-- Outcome of `transcribe_gcs_long_running` as observed by `main`:
the function catches `GoogleAPICallError` and `Exception` and returns
`None` (`failed`), returns the space-joined transcript on success
(`ok`), and lets `KeyboardInterrupt` escape (`interrupted`). -/
inductive TranscribeOutcome
  | interrupted
  | failed
  | ok (text : String)
deriving DecidableEq, Repr

/-- How the process ends: `exitOk` (exit code 0, including the
`sys.exit(0)` of the `KeyboardInterrupt` handler), `exitErr`
(`sys.exit(1)`), `uncaught` (an exception propagates out of `main`). -/
inductive ExitStatus
  | exitOk
  | exitErr
  | uncaught
deriving DecidableEq, Repr

/-- External calls made by `main`, in order. -/
inductive SEvent
  | upload (loc : String)
  | submitTranscribe (uri : String)
  | writeOutput (file : String)
  | deleteCall (loc : String)
deriving DecidableEq, Repr

def isDeleteEvent : SEvent → Bool
  | .deleteCall _ => true
  | _ => false

/-- Environment for one `main` invocation: the parsed arguments and
the outcome of each collaborator call.  `uploadErr` is what
`upload_blob` does (`none` = success); `transcribe` is what
`transcribe_gcs_long_running` does; `deleteErr` is what the storage
client does inside `delete_blob`. -/
structure StagingEnv where
  audioFile : String
  bucket : String
  now : String
  outputFile : Option String
  uploadErr : Option PyErr
  transcribe : TranscribeOutcome
  deleteErr : Option GcsErr

/-- `os.path.basename` for slash-separated paths. -/
def basename (p : String) : String := (p.splitOn "/").getLastD ""

/-- The unique blob name constructed at lines 111-113:
`audio_transcription/{timestamp}_{file_basename}`. -/
def blobNameOf (env : StagingEnv) : String :=
  "audio_transcription/" ++ env.now ++ "_" ++ basename env.audioFile

/-- Result of one `main` run: the process exit, the external-call
trace, the transcript delivered (`some (some f, t)` = written to file
`f`, `some (none, t)` = printed to stdout, `none` = no transcript),
and how the cleanup delete resolved. -/
structure StagingResult where
  exit : ExitStatus
  trace : List SEvent
  output : Option (Option String × String)
  cleanup : DeleteOutcome
deriving DecidableEq, Repr

/-- The `try` body of `main` (lines 109-135), without the `finally`:
construct the blob name, upload, bail out if the returned URI is empty
(it never is - it always starts with `gs://`), transcribe, deliver the
transcript.  A `KeyboardInterrupt` from a collaborator is caught by
the `except KeyboardInterrupt` handler and becomes `sys.exit(0)`;
any other exception from `upload_blob` propagates (`uncaught`). -/
def mainBody (env : StagingEnv) : ExitStatus × List SEvent × Option (Option String × String) :=
  let blobName := blobNameOf env
  match env.uploadErr with
  | some .keyboardInterrupt => (.exitOk, [.upload blobName], none)
  | some .other => (.uncaught, [.upload blobName], none)
  | none =>
    let gcsUri := "gs://" ++ env.bucket ++ "/" ++ blobName
    if gcsUri = "" then (.exitErr, [.upload blobName], none)
    else
      match env.transcribe with
      | .interrupted => (.exitOk, [.upload blobName, .submitTranscribe gcsUri], none)
      | .failed => (.exitErr, [.upload blobName, .submitTranscribe gcsUri], none)
      | .ok t =>
        match env.outputFile with
        | some f =>
          (.exitOk, [.upload blobName, .submitTranscribe gcsUri, .writeOutput f],
            some (some f, t))
        | none =>
          (.exitOk, [.upload blobName, .submitTranscribe gcsUri], some (none, t))

/-- `main` (lines 71-139): run the body, then the `finally` block,
which (the blob name having been constructed) issues exactly one
`delete_blob` call against that name on every exit path. -/
def main (env : StagingEnv) : StagingResult :=
  let r := mainBody env
  { exit := r.1
    trace := r.2.1 ++ [.deleteCall (blobNameOf env)]
    output := r.2.2
    cleanup := delete_blob env.deleteErr }

end TranscribeAudio

namespace TranscriptTool

/-! ### Concrete environments for scenario theorems and witnesses -/

/-- A video whose artifact `abc-abc123-transcript.txt` already exists. -/
def envAbc : VideoEnv :=
  ⟨.ok "Abc", .ok [], true, true, "", true, "", "2025-01-01 00:00:00"⟩

/-- A video whose captions fetch returns the fragments
`["Hello ", "world"]`. -/
def envDef : VideoEnv :=
  ⟨.ok "Def", .ok ["Hello ", "world"], true, true, "", true, "", "2025-01-01 00:00:00"⟩

/-- A video whose captions fetch succeeds with zero fragments. -/
def envEmptyCaptions : VideoEnv :=
  ⟨.ok "T", .ok [], true, true, "", true, "", "2025-01-01 00:00:00"⟩

/-- A video for which every strategy collaborator fails. -/
def envFailing : VideoEnv :=
  ⟨.ok "T", .error (), false, false, "", false, "", "2025-01-01 00:00:00"⟩

/-- The two-video scenario of the spec: `abc123` skipped, `def456`
saved via the captions strategy. -/
def scenarioEnvs : String → VideoEnv :=
  fun v => if v = "def456" then envDef else envAbc

def scenarioFs : FS := [("abc-abc123-transcript.txt", "old")]

end TranscriptTool

namespace TranscriptTool

/-! ### Helper lemmas -/

theorem fetchPages_ok_append (ps : List (List String)) :
    ∀ (rest : List (Except Unit (List String × Bool))) (acc : List String),
      fetchPages ((ps.map fun l => Except.ok (l, true)) ++ rest) acc =
        fetchPages rest (acc ++ ps.flatten) := by
  induction ps with
  | nil => intro rest acc; simp
  | cons p ps ih =>
    intro rest acc
    rw [List.map_cons, List.cons_append]
    have step :
        fetchPages (Except.ok (p, true) :: ((ps.map fun l => Except.ok (l, true)) ++ rest)) acc =
          fetchPages ((ps.map fun l => Except.ok (l, true)) ++ rest) (acc ++ p) := by
      simp [fetchPages]
    rw [step, ih]
    simp [List.append_assoc]

/-- C5: the resolver pages through the listing accumulating
identifiers.  (a) When the channel-info call fails it returns the
empty sequence rather than raising.  (b) When the first `ps.length`
pages succeed with a continuation token present and the next page
fetch fails, it returns exactly the identifiers accumulated so far (a
partial result) rather than failing.  (c) When the first `ps.length`
pages succeed with a token and the next page succeeds with the token
absent, it terminates there - the sole normal termination condition -
returning all accumulated identifiers and never consulting any later
response `rest`. -/
theorem c5_resolver_paging :
    (∀ pages, get_channel_videos ⟨Except.error (), pages⟩ = []) ∧
    (∀ (pid : String) (ps : List (List String)) rest,
      get_channel_videos
        ⟨Except.ok pid, (ps.map fun l => Except.ok (l, true)) ++ Except.error () :: rest⟩ =
        ps.flatten) ∧
    (∀ (pid : String) (ps : List (List String)) (lastPage : List String) rest,
      get_channel_videos
        ⟨Except.ok pid,
          (ps.map fun l => Except.ok (l, true)) ++ Except.ok (lastPage, false) :: rest⟩ =
        ps.flatten ++ lastPage) := by
  refine ⟨fun pages => rfl, ?_, ?_⟩
  · intro pid ps rest
    show fetchPages _ [] = _
    rw [fetchPages_ok_append]
    simp [fetchPages]
  · intro pid ps lastPage rest
    show fetchPages _ [] = _
    rw [fetchPages_ok_append]
    simp [fetchPages]

/-! ### C1 -/

theorem statTotal_bump (s : Stats) (st : String) :
    statTotal (bump s st) = statTotal s + 1 := by
  unfold bump statTotal
  split_ifs <;> simp <;> omega

/-- C1: the strategy executor always returns one of the three
classified outcomes - `(True, "skipped")`, `(True, "new")` or
`(False, "error")` - for every environment, including those in which a
subprocess exits non-zero or a collaborator raises; consequently the
orchestrator loop processes every identifier of the sequence (the
final counters sum to the number of identifiers plus the initial sum),
and a `process_channel` run that produces stats always accounts for
every resolved identifier: no single video's failure aborts the
batch. -/
theorem c1_failures_classified_batch_completes :
    (∀ (env : VideoEnv) (fs : FS) (vid : String) (uw ua wl : Bool) (log : List String),
      ((download_and_save_transcript env fs vid uw ua wl log).ok = true ∧
        (download_and_save_transcript env fs vid uw ua wl log).status = "skipped") ∨
      ((download_and_save_transcript env fs vid uw ua wl log).ok = true ∧
        (download_and_save_transcript env fs vid uw ua wl log).status = "new") ∨
      ((download_and_save_transcript env fs vid uw ua wl log).ok = false ∧
        (download_and_save_transcript env fs vid uw ua wl log).status = "error")) ∧
    (∀ (envs : String → VideoEnv) (uw ua : Bool) (ids : List String) (fs : FS)
        (log : List String) (s : Stats),
      statTotal (processVideos envs uw ua ids fs log s).1 = statTotal s + ids.length) ∧
    (∀ (cenv : ChannelEnv) (envs : String → VideoEnv) (uw ua : Bool) (fs : FS),
      match process_channel cenv envs uw ua fs with
      | none => True
      | some r => statTotal r.1 = (get_channel_videos cenv).length) := by
  have part1 : ∀ (env : VideoEnv) (fs : FS) (vid : String) (uw ua wl : Bool)
      (log : List String),
      ((download_and_save_transcript env fs vid uw ua wl log).ok = true ∧
        (download_and_save_transcript env fs vid uw ua wl log).status = "skipped") ∨
      ((download_and_save_transcript env fs vid uw ua wl log).ok = true ∧
        (download_and_save_transcript env fs vid uw ua wl log).status = "new") ∨
      ((download_and_save_transcript env fs vid uw ua wl log).ok = false ∧
        (download_and_save_transcript env fs vid uw ua wl log).status = "error") := by
    intro env fs vid uw ua wl log
    obtain ⟨ti, ca, y, w, wt, tk, tt, n⟩ := env
    cases ti with
    | error u => simp [download_and_save_transcript]
    | ok t =>
      cases ca with
      | error u =>
        simp only [download_and_save_transcript]
        split_ifs <;> simp
      | ok entries =>
        simp only [download_and_save_transcript]
        split_ifs <;> simp
  have part2 : ∀ (envs : String → VideoEnv) (uw ua : Bool) (ids : List String) (fs : FS)
      (log : List String) (s : Stats),
      statTotal (processVideos envs uw ua ids fs log s).1 = statTotal s + ids.length := by
    intro envs uw ua ids
    induction ids with
    | nil => intro fs log s; simp [processVideos]
    | cons vid rest ih =>
      intro fs log s
      simp only [processVideos]
      rw [ih, statTotal_bump]
      simp [Nat.add_assoc, Nat.add_comm 1 rest.length]
  refine ⟨part1, part2, ?_⟩
  intro cenv envs uw ua fs
  unfold process_channel
  by_cases h : (get_channel_videos cenv).isEmpty
  · simp [h]
  · simp only [h, if_false, Bool.false_eq_true]
    rw [part2]
    simp [statTotal]

end TranscriptTool

namespace TranscribeAudio

/-! ### C2 -/

theorem gcsUri_ne_empty (b n : String) : ("gs://" ++ b ++ "/" ++ n) ≠ "" := by
  intro h
  have hl : ("gs://" ++ b ++ "/" ++ n).length = 0 := by rw [h]; rfl
  rw [String.length_append, String.length_append, String.length_append] at hl
  have h5 : "gs://".length = 5 := rfl
  have h1 : "/".length = 1 := rfl
  omega

/-- C2: for every staging environment - covering normal success,
transcription failure, upload failure, and external interruption
during upload or during the long-running operation - the trace of a
`main` run contains exactly one delete call, and it targets exactly
the blob name constructed for the upload; moreover a remote object
already absent at delete time (`NotFound`) resolves as a skip, not an
error: `delete_blob` returns normally. -/
theorem c2_cleanup_exactly_once (env : StagingEnv) :
    (main env).trace.filter isDeleteEvent = [SEvent.deleteCall (blobNameOf env)] ∧
    delete_blob (some GcsErr.notFound) = DeleteOutcome.notFoundSkipped := by
  constructor
  · obtain ⟨af, bu, now, outf, upErr, tr, delErr⟩ := env
    cases upErr with
    | none =>
      cases tr with
      | interrupted =>
        simp [main, mainBody, isDeleteEvent, gcsUri_ne_empty]
      | failed =>
        simp [main, mainBody, isDeleteEvent, gcsUri_ne_empty]
      | ok t =>
        cases outf <;> simp [main, mainBody, isDeleteEvent, gcsUri_ne_empty]
    | some e =>
      cases e <;> simp [main, mainBody, isDeleteEvent]
  · rfl

/-! ### C10 -/

/-- C10: `delete_blob` never raises: a `NotFound` from the storage
collaborator resolves as a skipped no-op, any other exception is
swallowed as a logged error, and a normal delete succeeds - in every
case the function returns; and the reported outcome of a `main` run
(exit status and delivered transcript) is identical whatever the
delete does, so a run whose transcription succeeded still reports
success when the remote delete fails. -/
theorem c10_delete_blob_never_raises :
    delete_blob none = DeleteOutcome.deleted ∧
    delete_blob (some GcsErr.notFound) = DeleteOutcome.notFoundSkipped ∧
    delete_blob (some GcsErr.other) = DeleteOutcome.errorSwallowed ∧
    (∀ (env : StagingEnv) (d1 d2 : Option GcsErr),
      (main { env with deleteErr := d1 }).exit = (main { env with deleteErr := d2 }).exit ∧
      (main { env with deleteErr := d1 }).output = (main { env with deleteErr := d2 }).output) := by
  refine ⟨rfl, rfl, rfl, ?_⟩
  intro env d1 d2
  exact ⟨rfl, rfl⟩

end TranscribeAudio

namespace TranscriptTool

/-! ### Filesystem lemmas -/

theorem fsRead_fsWrite (fs : FS) (n t : String) : fsRead (fsWrite fs n t) n = t := by
  simp [fsRead, fsWrite, List.find?]

theorem find?_fsRemoveName_ne (n m : String) (h : m ≠ n) :
    ∀ fs : FS, (fsRemoveName fs n).find? (fun p => p.1 == m) =
      fs.find? (fun p => p.1 == m) := by
  intro fs
  induction fs with
  | nil => rfl
  | cons p l ih =>
    simp only [fsRemoveName, List.filter_cons] at *
    by_cases hpn : (p.1 == n) = true
    · have hpm : (p.1 == m) = false := by
        rw [beq_eq_false_iff_ne]
        intro hc
        exact h (hc.symm.trans (beq_iff_eq.mp hpn))
      rw [if_neg (by simp [hpn]), ih]
      simp [List.find?, hpm]
    · rw [if_pos (by simp [hpn])]
      by_cases hpm : (p.1 == m) = true
      · simp [List.find?, hpm]
      · simp only [List.find?, hpm]
        simpa using ih

theorem fsRead_fsRemoveName_ne (fs : FS) (n m : String) (h : m ≠ n) :
    fsRead (fsRemoveName fs n) m = fsRead fs m := by
  simp [fsRead, find?_fsRemoveName_ne n m h fs]

theorem derivedFilename_ne_short (slug vid suf : String) (h : suf.length ≤ 5) :
    derivedFilename slug vid ≠ vid ++ suf := by
  intro heq
  have hl := congrArg String.length heq
  unfold derivedFilename at hl
  rw [String.length_append, String.length_append, String.length_append,
    String.length_append] at hl
  have h1 : "-".length = 1 := rfl
  have h2 : "-transcript.txt".length = 15 := rfl
  omega

theorem fsRead_cleanupSiblings (fs : FS) (vid slug : String) :
    fsRead (cleanupSiblings fs vid) (derivedFilename slug vid) =
      fsRead fs (derivedFilename slug vid) := by
  have hne : ∀ ext : String, ext.length ≤ 4 →
      derivedFilename slug vid ≠ vid ++ "." ++ ext := by
    intro ext hext heq
    have : derivedFilename slug vid = vid ++ ("." ++ ext) := by
      rw [heq, String.append_assoc]
    exact derivedFilename_ne_short slug vid ("." ++ ext)
      (by rw [String.length_append]; have : ".".length = 1 := rfl; omega) this
  simp only [cleanupSiblings, List.foldl]
  rw [fsRead_fsRemoveName_ne _ _ _ (hne "vtt" (by decide)),
    fsRead_fsRemoveName_ne _ _ _ (hne "tsv" (by decide)),
    fsRead_fsRemoveName_ne _ _ _ (hne "srt" (by decide)),
    fsRead_fsRemoveName_ne _ _ _ (hne "json" (by decide)),
    fsRead_fsRemoveName_ne _ _ _ (hne "mp3" (by decide))]

/-! ### Executor evaluation lemmas -/

theorem exec_eval_skip (env : VideoEnv) (fs : FS) (vid : String) (uw ua wl : Bool)
    (log : List String) (t : String) (ht : env.title = Except.ok t)
    (hex : fsExists fs (derivedFilename (slugify t) vid) = true) :
    download_and_save_transcript env fs vid uw ua wl log =
      ⟨true, "skipped", fs, log,
        [Event.titleFetch vid, Event.existsCheck (derivedFilename (slugify t) vid)]⟩ := by
  obtain ⟨ti, ca, y, w, wt, tk, tt, n⟩ := env
  simp only at ht
  subst ht
  simp [download_and_save_transcript, hex]

theorem exec_eval_api_ok (t : String) (ca : List String) (y w : Bool)
    (wt : String) (tk : Bool) (tt n : String) (fs : FS) (vid : String) (wl : Bool)
    (log : List String)
    (hex : fsExists fs (derivedFilename (slugify t) vid) = false) :
    download_and_save_transcript ⟨Except.ok t, Except.ok ca, y, w, wt, tk, tt, n⟩
        fs vid false true wl log =
      ⟨true, "new",
        fsWrite fs (derivedFilename (slugify t) vid) (String.intercalate " " ca),
        appendLog wl log (derivedFilename (slugify t) vid) t n
          (String.intercalate " " ca),
        [Event.titleFetch vid, Event.existsCheck (derivedFilename (slugify t) vid),
          Event.captionsFetch vid]⟩ := by
  simp [download_and_save_transcript, hex]

theorem exec_eval_whisper_ok (t : String) (ca : Except Unit (List String))
    (wt : String) (tk : Bool) (tt n : String) (fs : FS) (vid : String) (ua wl : Bool)
    (log : List String)
    (hex : fsExists fs (derivedFilename (slugify t) vid) = false) :
    download_and_save_transcript ⟨Except.ok t, ca, true, true, wt, tk, tt, n⟩
        fs vid true ua wl log =
      ⟨true, "new",
        cleanupSiblings
          (fsRename (fsWrite (fsWrite fs (vid ++ ".mp3") "") (vid ++ ".txt") wt)
            (vid ++ ".txt") (derivedFilename (slugify t) vid)) vid,
        appendLog wl log (derivedFilename (slugify t) vid) t n wt,
        [Event.titleFetch vid, Event.existsCheck (derivedFilename (slugify t) vid),
          Event.procYtdlp vid, Event.procWhisper (vid ++ ".mp3")]⟩ := by
  simp [download_and_save_transcript, hex, fsRead_fsWrite]

theorem exec_eval_gcs_ok (t : String) (ca : Except Unit (List String))
    (w : Bool) (wt : String) (tt n : String) (fs : FS) (vid : String) (wl : Bool)
    (log : List String)
    (hex : fsExists fs (derivedFilename (slugify t) vid) = false) :
    download_and_save_transcript ⟨Except.ok t, ca, true, w, wt, true, tt, n⟩
        fs vid false false wl log =
      ⟨true, "new",
        fsRemoveName
          (fsWrite (fsWrite fs (vid ++ ".mp3") "") (derivedFilename (slugify t) vid) tt)
          (vid ++ ".mp3"),
        appendLog wl log (derivedFilename (slugify t) vid) t n tt,
        [Event.titleFetch vid, Event.existsCheck (derivedFilename (slugify t) vid),
          Event.procYtdlp vid, Event.procTranscribe (vid ++ ".mp3")]⟩ := by
  simp [download_and_save_transcript, hex, fsRead_fsWrite]

theorem appendLog_cases (log : List String) (fn t now text : String) :
    (text = "" ∧ appendLog true log fn t now text = log) ∨
    (text ≠ "" ∧ appendLog true log fn t now text =
      log ++ [framedEntry fn t now text]) := by
  by_cases h : text = ""
  · subst h
    exact Or.inl ⟨rfl, rfl⟩
  · refine Or.inr ⟨h, ?_⟩
    have hb : (text == "") = false := beq_eq_false_iff_ne.mpr h
    simp [appendLog, hb]

/-! ### C3 -/

/-- C3, counterexample: for a video whose artifact
`abc-abc123-transcript.txt` already exists, the executor does return
`Skipped` - but its trace already contains a network call, the
pytubefix title fetch (`YouTube(url).title`, an HTTP request) needed
to derive the filename, performed before the existence check.  So
"no network or subprocess cost is paid when the existence check
succeeds" is false as stated: the metadata network cost is always
paid first. -/
theorem c3_network_before_check_counterexample :
    (download_and_save_transcript envAbc scenarioFs "abc123" false true true []).status =
      "skipped" ∧
    (download_and_save_transcript envAbc scenarioFs "abc123" false true true []).trace.any
      isNetworkEvent = true ∧
    (download_and_save_transcript envAbc scenarioFs "abc123" false true true []).trace =
      [Event.titleFetch "abc123", Event.existsCheck "abc-abc123-transcript.txt"] :=
  ⟨rfl, rfl, rfl⟩

/-- C3, amended: whenever the executor returns `Skipped`, its trace is
exactly the title fetch followed by the existence check - so the
transition to `Skipped` happens before any subprocess invocation and
before any acquisition-strategy network call (captions fetch); the
only cost paid is the title-metadata network fetch needed to derive
the filename, which precedes the check. -/
theorem c3_skip_before_acquisition (env : VideoEnv) (fs : FS) (vid : String)
    (uw ua wl : Bool) (log : List String)
    (h : (download_and_save_transcript env fs vid uw ua wl log).status = "skipped") :
    ∃ t, env.title = Except.ok t ∧
      (download_and_save_transcript env fs vid uw ua wl log).trace =
        [Event.titleFetch vid, Event.existsCheck (derivedFilename (slugify t) vid)] ∧
      ∀ e ∈ (download_and_save_transcript env fs vid uw ua wl log).trace,
        isSubprocessEvent e = false ∧ e ≠ Event.captionsFetch vid := by
  obtain ⟨ti, ca, y, w, wt, tk, tt, n⟩ := env
  cases ti with
  | error u =>
    exfalso
    simp [download_and_save_transcript] at h
  | ok t =>
    refine ⟨t, rfl, ?_⟩
    by_cases hex :
        fsExists fs (derivedFilename (slugify t) vid) = true
    · constructor
      · simp [download_and_save_transcript, hex]
      · intro e he
        simp only [download_and_save_transcript, hex, if_true] at he
        rcases List.mem_cons.mp he with h1 | h1
        · subst h1; exact ⟨rfl, by simp⟩
        · rcases List.mem_cons.mp h1 with h2 | h2
          · subst h2; exact ⟨rfl, by simp⟩
          · simp at h2
    · exfalso
      cases ca with
      | error u =>
        simp only [download_and_save_transcript, hex] at h
        split_ifs at h <;> simp_all
      | ok entries =>
        simp only [download_and_save_transcript, hex] at h
        split_ifs at h <;> simp_all

/-- C3 witness: the amended theorem applied to the concrete skipped
video of the scenario environment. -/
theorem c3_skip_before_acquisition_witness :
    ∃ t, envAbc.title = Except.ok t ∧
      (download_and_save_transcript envAbc scenarioFs "abc123" false true true []).trace =
        [Event.titleFetch "abc123",
          Event.existsCheck (derivedFilename (slugify t) "abc123")] ∧
      ∀ e ∈ (download_and_save_transcript envAbc scenarioFs "abc123" false true true []).trace,
        isSubprocessEvent e = false ∧ e ≠ Event.captionsFetch "abc123" :=
  c3_skip_before_acquisition envAbc scenarioFs "abc123" false true true [] rfl

/-! ### C8 -/

/-- C8: the two-video scenario.  With `abc123`'s artifact on disk and
`def456` acquired via the captions strategy returning the fragments
`["Hello ", "world"]`, the run ends with stats
`{new: 1, skipped: 1, error: 0}`, the saved artifact text is the
space-joined `"Hello  world"` (double space preserved), and the
combined log receives exactly the one framed entry for `def456`. -/
theorem c8_captions_scenario :
    (processVideos scenarioEnvs false true ["abc123", "def456"] scenarioFs []
      ⟨0, 0, 0⟩).1 = ⟨1, 1, 0⟩ ∧
    fsRead (processVideos scenarioEnvs false true ["abc123", "def456"] scenarioFs []
      ⟨0, 0, 0⟩).2.1 "def-def456-transcript.txt" = "Hello  world" ∧
    (processVideos scenarioEnvs false true ["abc123", "def456"] scenarioFs []
      ⟨0, 0, 0⟩).2.2 =
      [framedEntry "def-def456-transcript.txt" "Def" "2025-01-01 00:00:00"
        "Hello  world"] ∧
    String.intercalate " " ["Hello ", "world"] = "Hello  world" :=
  ⟨rfl, rfl, rfl, rfl⟩

/-! ### C4 -/

/-- C4, counterexample: a captions fetch that succeeds with zero
fragments yields outcome `(True, "new")` (Saved) with saved text `""`,
yet nothing is appended to the combined log, because the write is
guarded by `if combined_file_handle and text:` and the empty string is
falsy.  So "for every video whose outcome is Saved a framed entry is
appended" is false as stated. -/
theorem c4_empty_text_counterexample :
    (download_and_save_transcript envEmptyCaptions [] "vid1" false true true []).status =
      "new" ∧
    (download_and_save_transcript envEmptyCaptions [] "vid1" false true true []).log =
      [] :=
  ⟨rfl, rfl⟩

/-- C4, amended: `Saved` increments `new`, `Skipped` increments
`skipped`, `Failed` increments `error`; a `Skipped` or `Failed`
outcome writes nothing to the combined log; a `Saved` outcome appends
exactly one framed entry (filename header, title, retrieval
timestamp, separator, body text) when the saved artifact text is
non-empty, and writes nothing when the saved text is empty. -/
theorem c4_saved_appends_framed_entry (env : VideoEnv) (fs : FS) (vid : String)
    (uw ua : Bool) (log : List String) :
    (∀ s : Stats, bump s "new" = { s with new := s.new + 1 } ∧
      bump s "skipped" = { s with skipped := s.skipped + 1 } ∧
      bump s "error" = { s with error := s.error + 1 }) ∧
    ((download_and_save_transcript env fs vid uw ua true log).status = "skipped" →
      (download_and_save_transcript env fs vid uw ua true log).log = log) ∧
    ((download_and_save_transcript env fs vid uw ua true log).status = "error" →
      (download_and_save_transcript env fs vid uw ua true log).log = log) ∧
    ((download_and_save_transcript env fs vid uw ua true log).status = "new" →
      ∃ t, env.title = Except.ok t ∧
        ((fsRead (download_and_save_transcript env fs vid uw ua true log).fs
            (derivedFilename (slugify t) vid) = "" ∧
          (download_and_save_transcript env fs vid uw ua true log).log = log) ∨
        (fsRead (download_and_save_transcript env fs vid uw ua true log).fs
            (derivedFilename (slugify t) vid) ≠ "" ∧
          (download_and_save_transcript env fs vid uw ua true log).log =
            log ++ [framedEntry (derivedFilename (slugify t) vid) t env.now
              (fsRead (download_and_save_transcript env fs vid uw ua true log).fs
                (derivedFilename (slugify t) vid))]))) := by
  refine ⟨by intro s; exact ⟨rfl, rfl, rfl⟩, ?_⟩
  obtain ⟨ti, ca, y, w, wt, tk, tt, n⟩ := env
  cases ti with
  | error u => simp [download_and_save_transcript]
  | ok t =>
    by_cases hex : fsExists fs (derivedFilename (slugify t) vid) = true
    · rw [exec_eval_skip _ fs vid uw ua true log t rfl hex]
      simp
    · rw [Bool.not_eq_true] at hex
      cases uw with
      | true =>
        cases y with
        | false => simp [download_and_save_transcript, hex]
        | true =>
          cases w with
          | false => simp [download_and_save_transcript, hex]
          | true =>
            rw [exec_eval_whisper_ok t ca wt tk tt n fs vid ua true log hex]
            refine ⟨by simp, by simp, ?_⟩
            intro _
            refine ⟨t, rfl, ?_⟩
            have hbody :
                fsRead
                  (cleanupSiblings
                    (fsRename (fsWrite (fsWrite fs (vid ++ ".mp3") "") (vid ++ ".txt") wt)
                      (vid ++ ".txt") (derivedFilename (slugify t) vid)) vid)
                  (derivedFilename (slugify t) vid) = wt := by
              rw [fsRead_cleanupSiblings]
              simp [fsRename, fsRead_fsWrite]
            simp only [hbody]
            exact appendLog_cases log (derivedFilename (slugify t) vid) t n wt
      | false =>
        cases ua with
        | true =>
          cases ca with
          | error u => simp [download_and_save_transcript, hex]
          | ok entries =>
            rw [exec_eval_api_ok t entries y w wt tk tt n fs vid true log hex]
            refine ⟨by simp, by simp, ?_⟩
            intro _
            refine ⟨t, rfl, ?_⟩
            simp only [fsRead_fsWrite]
            exact appendLog_cases log (derivedFilename (slugify t) vid) t n
              (String.intercalate " " entries)
        | false =>
          cases y with
          | false => simp [download_and_save_transcript, hex]
          | true =>
            cases tk with
            | false => simp [download_and_save_transcript, hex]
            | true =>
              rw [exec_eval_gcs_ok t ca w wt tt n fs vid true log hex]
              refine ⟨by simp, by simp, ?_⟩
              intro _
              refine ⟨t, rfl, ?_⟩
              have hbody :
                  fsRead
                    (fsRemoveName
                      (fsWrite (fsWrite fs (vid ++ ".mp3") "")
                        (derivedFilename (slugify t) vid) tt)
                      (vid ++ ".mp3"))
                    (derivedFilename (slugify t) vid) = tt := by
                rw [fsRead_fsRemoveName_ne _ _ _
                  (derivedFilename_ne_short (slugify t) vid ".mp3" (by decide))]
                exact fsRead_fsWrite _ _ _
              simp only [hbody]
              exact appendLog_cases log (derivedFilename (slugify t) vid) t n tt

/-- C4 witness: the amended theorem applied to the saved video of the
scenario (non-empty text case): the framed entry for `def456` is
appended. -/
theorem c4_saved_appends_framed_entry_witness :
    ∃ t, envDef.title = Except.ok t ∧
      ((fsRead (download_and_save_transcript envDef [] "def456" false true true []).fs
          (derivedFilename (slugify t) "def456") = "" ∧
        (download_and_save_transcript envDef [] "def456" false true true []).log = []) ∨
      (fsRead (download_and_save_transcript envDef [] "def456" false true true []).fs
          (derivedFilename (slugify t) "def456") ≠ "" ∧
        (download_and_save_transcript envDef [] "def456" false true true []).log =
          [] ++ [framedEntry (derivedFilename (slugify t) "def456") t envDef.now
            (fsRead (download_and_save_transcript envDef [] "def456" false true true []).fs
              (derivedFilename (slugify t) "def456"))])) :=
  (c4_saved_appends_framed_entry envDef [] "def456" false true []).2.2.2 rfl

/-! ### C7 -/

theorem processVideos_all_skipped (envs : String → VideoEnv) (uw ua : Bool) :
    ∀ (ids : List String) (fs : FS) (log : List String) (s : Stats),
      (∀ vid ∈ ids, ∃ t, (envs vid).title = Except.ok t ∧
        fsExists fs (derivedFilename (slugify t) vid) = true) →
      processVideos envs uw ua ids fs log s =
        ({ s with skipped := s.skipped + ids.length }, fs, log) := by
  intro ids
  induction ids with
  | nil => intro fs log s h; simp [processVideos]
  | cons vid rest ih =>
    intro fs log s h
    obtain ⟨t, ht, hex⟩ := h vid (List.mem_cons_self vid rest)
    simp only [processVideos]
    rw [exec_eval_skip (envs vid) fs vid uw ua true log t ht hex]
    dsimp only
    rw [show bump s "skipped" = { s with skipped := s.skipped + 1 } from rfl]
    rw [ih fs log _ (fun v hv => h v (List.mem_cons_of_mem _ hv))]
    simp only [List.length_cons]
    rw [show s.skipped + 1 + rest.length = s.skipped + (rest.length + 1) from by omega]

/-- C7: running the per-video loop a second time over the same
identifier sequence, with the same titles resolved for every video and
with every video's derived artifact present in the filesystem produced
by the first run (all artifacts from the first run persisting), yields
stats `{new: 0, skipped: N, error: 0}` on the second run, leaves the
filesystem untouched and appends nothing to the combined log: the
derived filename is a pure function of (slug, identifier), so the
existence check fires for every previously saved or skipped video. -/
theorem c7_idempotent_second_run (envs1 envs2 : String → VideoEnv) (uw ua : Bool)
    (ids : List String) (fs0 : FS)
    (h : ∀ vid ∈ ids, ∃ t, (envs1 vid).title = Except.ok t ∧
      (envs2 vid).title = Except.ok t ∧
      fsExists (processVideos envs1 uw ua ids fs0 [] ⟨0, 0, 0⟩).2.1
        (derivedFilename (slugify t) vid) = true) :
    processVideos envs2 uw ua ids
        (processVideos envs1 uw ua ids fs0 [] ⟨0, 0, 0⟩).2.1 [] ⟨0, 0, 0⟩ =
      (⟨0, ids.length, 0⟩,
        (processVideos envs1 uw ua ids fs0 [] ⟨0, 0, 0⟩).2.1, []) := by
  rw [processVideos_all_skipped envs2 uw ua ids _ [] ⟨0, 0, 0⟩
    (fun vid hv => by
      obtain ⟨t, _, h2, h3⟩ := h vid hv
      exact ⟨t, h2, h3⟩)]
  simp

/-- C7 witness: a one-video run via the captions strategy, then a
second run over the filesystem the first run produced: the second run
skips the video and reports `{new: 0, skipped: 1, error: 0}`. -/
theorem c7_idempotent_second_run_witness :
    processVideos (fun _ => envDef) false true ["def456"]
        (processVideos (fun _ => envDef) false true ["def456"] [] [] ⟨0, 0, 0⟩).2.1 []
        ⟨0, 0, 0⟩ =
      (⟨0, 1, 0⟩,
        (processVideos (fun _ => envDef) false true ["def456"] [] [] ⟨0, 0, 0⟩).2.1,
        []) :=
  c7_idempotent_second_run (fun _ => envDef) (fun _ => envDef) false true ["def456"] []
    (by
      intro vid hv
      simp only [List.mem_singleton] at hv
      subst hv
      exact ⟨"Def", rfl, rfl, rfl⟩)

/-! ### C9 -/

/-- C9: in standalone recombine mode, (a) when zero local artifacts
match the `-transcript.txt` naming convention the combined output is
neither created nor rewritten (`none`) - the "no files found"
condition; (b) when at least one matches, the output is rebuilt from
scratch; (c) the rebuilt content consists of the banner and exactly
one framed entry per discovered artifact, the entries are a
permutation of the matching artifacts arranged in lexicographically
sorted order, and each entry frames that artifact's content.  The
function takes no collaborator environment: it makes no network or
subprocess calls. -/
theorem c9_recombine (fs : FS) (now : String) :
    ((fs.map Prod.fst).filter (fun f => strEndsWith f "-transcript.txt") = [] →
      combine_local_files fs now = none) ∧
    ((fs.map Prod.fst).filter (fun f => strEndsWith f "-transcript.txt") ≠ [] →
      (combine_local_files fs now).isSome = true) ∧
    (∀ banner entries, combine_local_files fs now = some (banner, entries) →
      banner = combinedBanner now ∧
      List.Perm (entries.map Prod.fst)
        ((fs.map Prod.fst).filter (fun f => strEndsWith f "-transcript.txt")) ∧
      List.Sorted (· ≤ ·) (entries.map Prod.fst) ∧
      entries.length =
        ((fs.map Prod.fst).filter (fun f => strEndsWith f "-transcript.txt")).length ∧
      ∀ e ∈ entries, e.2 = episodeEntry e.1 (fsRead fs e.1)) := by
  refine ⟨?_, ?_, ?_⟩
  · intro h
    simp [combine_local_files, h]
  · intro h
    simp [combine_local_files, List.isEmpty_iff, h]
  · intro banner entries hsome
    by_cases h : (fs.map Prod.fst).filter (fun f => strEndsWith f "-transcript.txt") = []
    · simp [combine_local_files, h] at hsome
    · rw [combine_local_files] at hsome
      rw [if_neg (by simpa [List.isEmpty_iff] using h)] at hsome
      rw [Option.some.injEq, Prod.mk.injEq] at hsome
      obtain ⟨hb, he⟩ := hsome
      subst hb
      subst he
      have hmapfst :
          ((List.insertionSort (· ≤ ·)
              ((fs.map Prod.fst).filter (fun f => strEndsWith f "-transcript.txt"))).map
            (fun f => (f, episodeEntry f (fsRead fs f)))).map Prod.fst =
          List.insertionSort (· ≤ ·)
            ((fs.map Prod.fst).filter (fun f => strEndsWith f "-transcript.txt")) := by
        rw [List.map_map]
        have : (Prod.fst ∘ fun f => (f, episodeEntry f (fsRead fs f))) = id := rfl
        rw [this, List.map_id]
      refine ⟨rfl, ?_, ?_, ?_, ?_⟩
      · rw [hmapfst]
        exact List.perm_insertionSort _ _
      · rw [hmapfst]
        exact List.sorted_insertionSort _ _
      · rw [List.length_map, List.length_insertionSort]
      · intro e he
        obtain ⟨f, _, rfl⟩ := List.mem_map.mp he
        rfl

/-- C9 witness: a directory holding one matching artifact and one
non-matching file: the rebuilt output is the banner plus the single
framed entry. -/
theorem c9_recombine_witness :
    combinedBanner "t0" = combinedBanner "t0" ∧
    List.Perm
      ([("a-transcript.txt", episodeEntry "a-transcript.txt" "A")].map Prod.fst)
      ((([("a-transcript.txt", "A"), ("x.mp3", "z")] : FS).map Prod.fst).filter
        (fun f => strEndsWith f "-transcript.txt")) ∧
    List.Sorted (· ≤ ·)
      ([("a-transcript.txt", episodeEntry "a-transcript.txt" "A")].map Prod.fst) ∧
    [("a-transcript.txt", episodeEntry "a-transcript.txt" "A")].length =
      ((([("a-transcript.txt", "A"), ("x.mp3", "z")] : FS).map Prod.fst).filter
        (fun f => strEndsWith f "-transcript.txt")).length ∧
    ∀ e ∈ [("a-transcript.txt", episodeEntry "a-transcript.txt" "A")],
      e.2 = episodeEntry e.1
        (fsRead [("a-transcript.txt", "A"), ("x.mp3", "z")] e.1) :=
  (c9_recombine [("a-transcript.txt", "A"), ("x.mp3", "z")] "t0").2.2
    (combinedBanner "t0")
    [("a-transcript.txt", episodeEntry "a-transcript.txt" "A")] rfl

end TranscriptTool
